import Mathlib

/-!
Verification development for the BGP anomaly-detection notebook
(`svm_nimda_1min.ipynb`).  The notebook's own logic — feature selection by
relative mean shift, call-site configuration of the train/test split and the
hyperparameter grid search, binary evaluation metrics, the explainability
guard, and model/feature-list persistence — is embedded shallowly below;
numerical library internals (SVM optimisation, PCA fitting, SHAP/LIME) are
treated as opaque parameters, exactly as the specification scopes them.
-/

namespace BgpSvm

/-! ### Data model: the feature table

A row holds the binary `class` label and the numeric feature values, aligned
positionally with the column-name list.  `timestamp`-like columns are already
dropped (notebook cell-10), and missing values are already imputed with 0
(cell-8), so every entry is a rational number.
-/

structure Table where
  cols : List String
  rows : List (Nat × List ℚ)
deriving Repr, DecidableEq

/-- Values of column `i` among the rows carrying label `lbl`
(`normal[col]` / `anomaly[col]` in cell-12). -/
def colVals (t : Table) (lbl : Nat) (i : Nat) : List ℚ :=
  (t.rows.filter (fun r => r.1 == lbl)).map (fun r => r.2.getD i 0)

/-- Arithmetic mean of a list of rationals.  On the empty list this yields `0`
(rational division by zero), which matches the notebook's explicit
`anomaly_mean = ... if not anomaly.empty else 0`; theorems about the
normal-group mean carry a nonemptiness hypothesis, since pandas returns NaN
there and NaN is outside this embedding. -/
def listMean (l : List ℚ) : ℚ := l.sum / l.length

/-- `normal_mean = normal[col].mean()` (cell-12). -/
def normalMean (t : Table) (i : Nat) : ℚ := listMean (colVals t 0 i)

/-- `anomaly_mean = anomaly[col].mean() if not anomaly.empty else 0` (cell-12). -/
def anomalyMean (t : Table) (i : Nat) : ℚ :=
  if (t.rows.filter (fun r => r.1 == 1)).isEmpty then 0
  else listMean (colVals t 1 i)

/-- A relative shift: either a finite rational or the `float('inf')` sentinel
produced by the division guard. -/
inductive Shift where
  | fin : ℚ → Shift
  | inf : Shift
deriving Repr, DecidableEq

/-- Python's `abs` on a rational. -/
def pyabs (q : ℚ) : ℚ := if q < 0 then -q else q

/-- The descending absolute-value comparison used by
`sort_values('Relative Change', key=abs, ascending=False)` (cell-12):
`a` may come before `b` iff `|a| ≥ |b|`, with the infinity sentinel larger
than every finite value (Python float ordering on `abs`). -/
def Shift.absGE : Shift → Shift → Bool
  | .inf, _ => true
  | .fin _, .inf => false
  | .fin a, .fin b => pyabs b ≤ pyabs a

/-- The division-guarded relative change for one column (cell-12):
`if normal_mean == 0: diff = 0 if anomaly_mean == 0 else float('inf')
 else: diff = (anomaly_mean - normal_mean) / normal_mean`. -/
def featureDiff (t : Table) (i : Nat) : Shift :=
  let nm := normalMean t i
  let am := anomalyMean t i
  if nm = 0 then (if am = 0 then .fin 0 else .inf)
  else .fin ((am - nm) / nm)

/-- The `feature_diffs` dict converted to a DataFrame (cell-12): one
`(Feature, Relative Change)` pair per feature column, in column order.
(The `if col != 'class'` test in the source loop is vacuous: `X` already has
the label column dropped in cell-10.) -/
def featureDiffList (t : Table) : List (String × Shift) :=
  t.cols.enum.map (fun p => (p.2, featureDiff t p.1))

/-- `feature_diff_df.sort_values('Relative Change', key=abs, ascending=False)`
(cell-12).  The source's sort order among equal keys is implementation-defined
(pandas quicksort); a stable merge sort is one deterministic realisation and no
theorem below depends on the tie order. -/
def rankedFeatures (t : Table) : List (String × Shift) :=
  (featureDiffList t).mergeSort (fun a b => Shift.absGE a.2 b.2)

/-- `feature_diff_df.head(k)['Feature'].tolist()`: names of the top `k`
features by absolute relative change. -/
def topFeatures (t : Table) (k : Nat) : List String :=
  ((rankedFeatures t).take k).map Prod.fst

/-- `top_features = feature_diff_df.head(15)['Feature'].tolist()` (cell-13):
the notebook's selection uses the literal constant 15. -/
def selectedTopFeatures (t : Table) : List String := topFeatures t 15

/-! ### Model trainer: call-site configuration of the split and the grid search

The SVM optimisation itself is an opaque library routine; what the notebook
fixes is the pipeline shape, the hyperparameter grid, the cross-validation
configuration, and which data the search is fitted on.  Those call-site facts
are embedded here.
-/

/-- The kernel bandwidth argument of `SVC`: either a preset or a number. -/
inductive Gamma where
  | scale : Gamma
  | auto : Gamma
  | num : ℚ → Gamma
deriving Repr, DecidableEq

/-- The kernel family argument of `SVC`. -/
inductive Kernel where
  | rbf : Kernel
  | linear : Kernel
  | poly : Kernel
deriving Repr, DecidableEq

/-- One hyperparameter configuration of the grid. -/
structure SVMParams where
  C : ℚ
  gamma : Gamma
  kernel : Kernel
deriving Repr, DecidableEq

/-- `param_grid['svm__C'] = [0.1, 1, 10, 100]` (cell-17). -/
def gridCs : List ℚ := [1/10, 1, 10, 100]

/-- `param_grid['svm__gamma'] = ['scale', 'auto', 0.1, 0.01]` (cell-17). -/
def gridGammas : List Gamma := [.scale, .auto, .num (1/10), .num (1/100)]

/-- `param_grid['svm__kernel'] = ['rbf', 'linear', 'poly']` (cell-17). -/
def gridKernels : List Kernel := [.rbf, .linear, .poly]

/-- The full cartesian grid searched by `GridSearchCV` (cell-17). -/
def paramGrid : List SVMParams :=
  gridCs.flatMap (fun c =>
    gridGammas.flatMap (fun g =>
      gridKernels.map (fun k => ⟨c, g, k⟩)))

/-- Step names of `Pipeline([('scaler', StandardScaler()), ('svm', SVC(...))])`
(cell-17): standardise first, classify second. -/
def pipelineSteps : List String := ["scaler", "svm"]

/-- Cross-validation configuration of `GridSearchCV(..., cv=5, scoring='f1')`
(cell-17). -/
structure SearchSpec where
  folds : Nat
  scoring : String
deriving Repr, DecidableEq

def gridSearchSpec : SearchSpec := ⟨5, "f1"⟩

/-- Call-site arguments of a `train_test_split` invocation. -/
structure SplitCall where
  testSize : ℚ
  seed : Nat
  stratified : Bool
deriving Repr, DecidableEq

/-- `train_test_split(X_selected, y, test_size=0.3, random_state=42,
stratify=y)` (cell-15). -/
def primarySplitCall : SplitCall := ⟨3/10, 42, true⟩

/-- `train_test_split(X_pca, y, test_size=0.3, random_state=42, stratify=y)`
(cell-26). -/
def pcaSplitCall : SplitCall := ⟨3/10, 42, true⟩

/-- The data as held by the notebook after the split: train and test parts of
the feature matrix and of the label vector. -/
structure SplitData (α : Type) where
  trainX : List α
  testX : List α
  trainY : List Nat
  testY : List Nat

/-- `GridSearchCV(...).fit(X_train, y_train)` (cell-17), with the library's
cross-validated scorer abstracted as `cvScore`: the best configuration is a
maximiser of the score over the grid (sklearn keeps the first best on ties —
`List.argmax` realises exactly that choice).  Only the train part of the split
is passed to the fit. -/
def fitGridSearch {α : Type} (cvScore : List α → List Nat → SVMParams → ℚ)
    (d : SplitData α) : Option SVMParams :=
  paramGrid.argmax (cvScore d.trainX d.trainY)

/-! ### Evaluator: binary precision and recall

Modelled from sklearn's documented semantics of
`precision_recall_fscore_support(y_test, y_pred, average='binary')` with the
default `zero_division="warn"`: precision = tp/(tp+fp) and recall = tp/(tp+fn)
for positive label 1, and a metric whose denominator is zero is set to `0.0`
while an `UndefinedMetricWarning` is emitted — a warning that cell-2's
`warnings.filterwarnings('ignore')` silences.
-/

/-- Rows predicted 1 whose true label is 1. -/
def tpCount (yTrue yPred : List Nat) : Nat :=
  ((yTrue.zip yPred).filter (fun p => p.1 == 1 && p.2 == 1)).length

/-- Rows predicted 1 whose true label is not 1. -/
def fpCount (yTrue yPred : List Nat) : Nat :=
  ((yTrue.zip yPred).filter (fun p => p.1 != 1 && p.2 == 1)).length

/-- Rows with true label 1 predicted otherwise. -/
def fnCount (yTrue yPred : List Nat) : Nat :=
  ((yTrue.zip yPred).filter (fun p => p.1 == 1 && p.2 != 1)).length

/-- Binary-averaged precision, with the zero-denominator convention above. -/
def precisionBinary (yTrue yPred : List Nat) : ℚ :=
  let tp := tpCount yTrue yPred
  let fp := fpCount yTrue yPred
  if tp + fp = 0 then 0 else (tp : ℚ) / ((tp : ℚ) + (fp : ℚ))

/-- Binary-averaged recall, with the zero-denominator convention above. -/
def recallBinary (yTrue yPred : List Nat) : ℚ :=
  let tp := tpCount yTrue yPred
  let fn := fnCount yTrue yPred
  if tp + fn = 0 then 0 else (tp : ℚ) / ((tp : ℚ) + (fn : ℚ))

/-- `warnings.filterwarnings('ignore')` (cell-2): every warning, including the
undefined-metric one, is suppressed for the whole run. -/
def warningsSuppressed : Bool := true

/-! ### Explainer guard -/

/-- Outcome of one notebook stage: it either ran, or was skipped with a
printed message.  There is no failure constructor because the guarded stages
cannot abort the run. -/
inductive StageResult where
  | ran : String → StageResult
  | skipped : String → StageResult
deriving Repr, DecidableEq

/-- `EXPLAINABILITY_AVAILABLE` as set by the try/except import (cell-2). -/
def explainabilityFlag (importsSucceeded : Bool) : Bool := importsSucceeded

/-- The two lines printed by the except branch of the import (cell-2). -/
def importWarnings : List String :=
  ["Warning: SHAP and/or LIME libraries not installed. Explainability sections will be skipped.",
   "Run 'pip install shap lime' to install them."]

/-- The SHAP cell (cell-32): guarded by `if EXPLAINABILITY_AVAILABLE`. -/
def shapStage (available : Bool) : StageResult :=
  if available then .ran "shap"
  else .skipped "SHAP analysis skipped because libraries are not installed."

/-- The LIME cell (cell-34): guarded by `if EXPLAINABILITY_AVAILABLE`. -/
def limeStage (available : Bool) : StageResult :=
  if available then .ran "lime"
  else .skipped "LIME analysis skipped because libraries are not installed."

/-- The notebook's stages in execution order (cells 4..38); only the two
explainability stages consult the availability flag. -/
def notebookStages (available : Bool) : List StageResult :=
  [.ran "load", .ran "preprocess", .ran "feature_selection", .ran "split",
   .ran "train", .ran "evaluate", .ran "visualize",
   shapStage available, limeStage available,
   .ran "persist", .ran "reload"]

/-! ### Persister: the artifact store

`joblib.dump` / `joblib.load` and `to_csv` / `read_csv` against fixed file
names are modelled over an explicit path-indexed store in which a later write
to the same path shadows an earlier one.
-/

/-- A persisted artifact: the opaque serialized model (of abstract type `μ`)
or the one-column `Feature` CSV holding the selected names in ranked order. -/
inductive Artifact (μ : Type) where
  | model : μ → Artifact μ
  | featureCsv : List String → Artifact μ
deriving DecidableEq

/-- The durable store: a list of (path, artifact) writes, newest first. -/
abbrev Store (μ : Type) := List (String × Artifact μ)

def writeFile {μ : Type} (s : Store μ) (path : String) (a : Artifact μ) : Store μ :=
  (path, a) :: s

def readFile {μ : Type} (s : Store μ) (path : String) : Option (Artifact μ) :=
  (s.find? (fun e => e.1 == path)).map Prod.snd

/-- Path of `joblib.dump(best_model, 'svm_nimda_1min_model.pkl')` (cell-36). -/
def modelDumpPath : String := "svm_nimda_1min_model.pkl"

/-- Path of the `to_csv` writing the selected-feature list (cell-36). -/
def featuresDumpPath : String := "nimda_1_bgp_anomaly_selected_features.csv"

/-- File name mentioned by the print after the model dump (cell-36). -/
def messageModelPath : String := "bgp_anomaly_svm_model.pkl"

/-- File name mentioned by the print after the feature-list dump (cell-36). -/
def messageFeaturesPath : String := "bgp_anomaly_selected_features.csv"

/-- The confirmation line printed after saving the model (cell-36). -/
def modelSavedMessage : String := "Model saved to 'bgp_anomaly_svm_model.pkl'"

/-- The confirmation line printed after saving the feature list (cell-36). -/
def featuresSavedMessage : String :=
  "Selected features saved to 'bgp_anomaly_selected_features.csv'"

/-- Path of `joblib.load('svm_nimda_1min_model.pkl')` (cell-38). -/
def modelLoadPath : String := "svm_nimda_1min_model.pkl"

/-- Path of the `pd.read_csv` reloading the feature list (cell-38). -/
def featuresLoadPath : String := "nimda_1_bgp_anomaly_selected_features.csv"

/-- Cell-36: dump the model, then the feature list, each under its fixed
path. -/
def persistArtifacts {μ : Type} (s : Store μ) (best : μ) (feats : List String) :
    Store μ :=
  writeFile (writeFile s modelDumpPath (.model best)) featuresDumpPath
    (.featureCsv feats)

/-- Cell-38: `loaded_model = joblib.load('svm_nimda_1min_model.pkl')`. -/
def loadModel {μ : Type} (s : Store μ) : Option μ :=
  match readFile s modelLoadPath with
  | some (.model m) => some m
  | _ => none

/-- Cell-38: `selected_features = pd.read_csv(...)['Feature'].tolist()`. -/
def loadFeatures {μ : Type} (s : Store μ) : Option (List String) :=
  match readFile s featuresLoadPath with
  | some (.featureCsv fs) => some fs
  | _ => none

/-! ### The two `train_test_split` call sites (cell-15 and cell-26)

sklearn's `train_test_split` draws its row-index partition from the RNG seed,
the test fraction and (under stratification) the label vector; the feature
matrix is only indexed by the resulting index arrays.  The splitter is
therefore taken as an arbitrary function of those three arguments, and each
call site is embedded as the application of that function to the literal
arguments the notebook passes.
-/

/-- Row selection `X[idx]` by an index array. -/
def selectRows {α : Type} (X : List α) (idx : List Nat) (dflt : α) : List α :=
  idx.map (fun i => X.getD i dflt)

/-- Index partition drawn by the primary split (cell-15):
seed 42, test fraction 0.3, stratify labels `y`. -/
def primarySplitIndices (split : Nat → ℚ → List Nat → List Nat × List Nat)
    (y : List Nat) : List Nat × List Nat :=
  split 42 (3/10) y

/-- Index partition drawn by the PCA-space split (cell-26):
seed 42, test fraction 0.3, stratify labels `y` — the same arguments. -/
def pcaSplitIndices (split : Nat → ℚ → List Nat → List Nat × List Nat)
    (y : List Nat) : List Nat × List Nat :=
  split 42 (3/10) y

/-- A concrete table used to instantiate hypotheses of the general theorems. -/
def sampleTable : Table :=
  ⟨["a", "b"], [(0, [2, 1]), (1, [5, 1])]⟩

/-! ### Helper lemmas -/

theorem shiftAbsGE_trans (a b c : Shift) (hab : Shift.absGE a b = true)
    (hbc : Shift.absGE b c = true) : Shift.absGE a c = true := by
  cases a with
  | inf => rfl
  | fin qa =>
    cases b with
    | inf => simp [Shift.absGE] at hab
    | fin qb =>
      cases c with
      | inf => simp [Shift.absGE] at hbc
      | fin qc =>
        simp only [Shift.absGE, decide_eq_true_eq] at hab hbc ⊢
        exact le_trans hbc hab

theorem shiftAbsGE_total (a b : Shift) :
    (Shift.absGE a b || Shift.absGE b a) = true := by
  cases a with
  | inf => rfl
  | fin qa =>
    cases b with
    | inf => rfl
    | fin qb => simpa [Shift.absGE] using le_total (pyabs qb) (pyabs qa)

theorem featureDiffList_map_fst (t : Table) :
    (featureDiffList t).map Prod.fst = t.cols := by
  unfold featureDiffList
  rw [List.map_map]
  exact List.enum_map_snd t.cols

theorem rankedFeatures_length (t : Table) :
    (rankedFeatures t).length = t.cols.length := by
  simp [rankedFeatures, featureDiffList]

theorem selectRows_map {α β : Type} (f : α → β) (X : List α) (idx : List Nat)
    (dX : α) (hval : ∀ i ∈ idx, i < X.length) :
    selectRows (X.map f) idx (f dX) = (selectRows X idx dX).map f := by
  unfold selectRows
  rw [List.map_map]
  apply List.map_congr_left
  intro i hi
  have hlt := hval i hi
  have hlt' : i < (X.map f).length := by simpa using hlt
  show (X.map f).getD i (f dX) = f (X.getD i dX)
  rw [List.getD_eq_getElem _ _ hlt', List.getD_eq_getElem _ _ hlt]
  exact List.getElem_map f

theorem tpCount_eq_zero (yTrue yPred : List Nat)
    (h : ∀ l ∈ yTrue, l ≠ 1) : tpCount yTrue yPred = 0 := by
  rw [tpCount, List.length_eq_zero, List.filter_eq_nil_iff]
  intro a ha
  have h1 := (List.of_mem_zip ha).1
  simp [h a.1 h1]

theorem fnCount_eq_zero (yTrue yPred : List Nat)
    (h : ∀ l ∈ yTrue, l ≠ 1) : fnCount yTrue yPred = 0 := by
  rw [fnCount, List.length_eq_zero, List.filter_eq_nil_iff]
  intro a ha
  have h1 := (List.of_mem_zip ha).1
  simp [h a.1 h1]

/-! ### Claim theorems -/

/-- C1: for every feature column (over a table whose normal group is nonempty,
so its mean is an actual number), the selector computes relative_shift =
(anomaly-group mean - normal-group mean) / normal-group mean, with the edge
cases: both means zero gives shift 0, and a zero normal mean with a non-zero
anomaly mean gives the unbounded sentinel, which sorts ahead of every finite
shift in the absolute-value ordering used for ranking. -/
theorem relative_shift_policy (t : Table) (i : Nat)
    (_hnormal : colVals t 0 i ≠ []) :
    (normalMean t i ≠ 0 →
      featureDiff t i =
        .fin ((anomalyMean t i - normalMean t i) / normalMean t i)) ∧
    (normalMean t i = 0 → anomalyMean t i = 0 → featureDiff t i = .fin 0) ∧
    (normalMean t i = 0 → anomalyMean t i ≠ 0 → featureDiff t i = .inf) ∧
    (∀ q : ℚ, Shift.absGE .inf (.fin q) = true ∧
      Shift.absGE (.fin q) .inf = false) := by
  refine ⟨?_, ?_, ?_, fun q => ⟨rfl, rfl⟩⟩
  · intro h
    simp [featureDiff, h]
  · intro h h2
    simp [featureDiff, h, h2]
  · intro h h2
    simp [featureDiff, h, h2]

/-- Witness for C1 at a concrete two-column table. -/
theorem relative_shift_policy_witness :
    (normalMean sampleTable 0 ≠ 0 →
      featureDiff sampleTable 0 =
        .fin ((anomalyMean sampleTable 0 - normalMean sampleTable 0) /
          normalMean sampleTable 0)) ∧
    (normalMean sampleTable 0 = 0 → anomalyMean sampleTable 0 = 0 →
      featureDiff sampleTable 0 = .fin 0) ∧
    (normalMean sampleTable 0 = 0 → anomalyMean sampleTable 0 ≠ 0 →
      featureDiff sampleTable 0 = .inf) ∧
    (∀ q : ℚ, Shift.absGE .inf (.fin q) = true ∧
      Shift.absGE (.fin q) .inf = false) :=
  relative_shift_policy sampleTable 0 (by decide)

/-- C4: on a table with at least one anomaly-labeled and one normal-labeled
row, the guarded division never raises and the per-column difference is a
finite value exactly unless the normal-group mean is zero while the
anomaly-group mean is not, in which case it is the unbounded sentinel. -/
theorem featureDiff_finite (t : Table) (i : Nat)
    (_h1 : ∃ r ∈ t.rows, r.1 = 1) (_h0 : ∃ r ∈ t.rows, r.1 = 0) :
    ((∃ q : ℚ, featureDiff t i = .fin q) ↔
      ¬(normalMean t i = 0 ∧ anomalyMean t i ≠ 0)) ∧
    (featureDiff t i = .inf ↔ (normalMean t i = 0 ∧ anomalyMean t i ≠ 0)) := by
  by_cases hn : normalMean t i = 0
  · by_cases ha : anomalyMean t i = 0
    · simp [featureDiff, hn, ha]
    · simp [featureDiff, hn, ha]
  · simp [featureDiff, hn]

/-- Witness for C4 at a concrete table with both labels present. -/
theorem featureDiff_finite_witness :
    ((∃ q : ℚ, featureDiff sampleTable 0 = .fin q) ↔
      ¬(normalMean sampleTable 0 = 0 ∧ anomalyMean sampleTable 0 ≠ 0)) ∧
    (featureDiff sampleTable 0 = .inf ↔
      (normalMean sampleTable 0 = 0 ∧ anomalyMean sampleTable 0 ≠ 0)) :=
  featureDiff_finite sampleTable 0 (by decide) (by decide)

/-- C5: feature selection is deterministic — identical input tables yield the
identical shift list, the identical ranking and the identical ordered top-15
feature-name list; no randomness enters the computation. -/
theorem feature_selection_deterministic (t t' : Table) (h : t = t') :
    featureDiffList t = featureDiffList t' ∧
    rankedFeatures t = rankedFeatures t' ∧
    selectedTopFeatures t = selectedTopFeatures t' := by
  subst h
  exact ⟨rfl, rfl, rfl⟩

/-- Witness for C5 at a concrete table. -/
theorem feature_selection_deterministic_witness :
    featureDiffList sampleTable = featureDiffList sampleTable ∧
    rankedFeatures sampleTable = rankedFeatures sampleTable ∧
    selectedTopFeatures sampleTable = selectedTopFeatures sampleTable :=
  feature_selection_deterministic sampleTable sampleTable rfl

/-- C7: the selector ranks all feature columns by descending absolute relative
shift (the ranked list is sorted under that ordering and is a permutation of
the column list) and takes the top K, with 15 the default; the selection
length caps at the available feature count, and a K at or beyond the column
count returns every feature in ranked order without error. -/
theorem topFeatures_spec (t : Table) (k : Nat) :
    (topFeatures t k).length = min k t.cols.length ∧
    (t.cols.length ≤ k → topFeatures t k = (rankedFeatures t).map Prod.fst) ∧
    List.Pairwise (fun a b => Shift.absGE a.2 b.2 = true) (rankedFeatures t) ∧
    ((rankedFeatures t).map Prod.fst).Perm t.cols ∧
    selectedTopFeatures t = topFeatures t 15 := by
  refine ⟨?_, ?_, ?_, ?_, rfl⟩
  · simp [topFeatures, List.length_take, rankedFeatures_length t]
  · intro hk
    have : (rankedFeatures t).length ≤ k := by rw [rankedFeatures_length]; exact hk
    simp [topFeatures, List.take_of_length_le this]
  · exact List.sorted_mergeSort
      (fun a b c hab hbc => shiftAbsGE_trans a.2 b.2 c.2 hab hbc)
      (fun a b => shiftAbsGE_total a.2 b.2) (featureDiffList t)
  · have hperm := (List.mergeSort_perm (featureDiffList t)
      (fun a b => Shift.absGE a.2 b.2)).map Prod.fst
    rw [featureDiffList_map_fst t] at hperm
    exact hperm

/-- Witness for C7: with only two columns, K = 15 exceeds the column count and
the selection returns the whole ranked list. -/
theorem topFeatures_spec_witness :
    topFeatures sampleTable 15 = (rankedFeatures sampleTable).map Prod.fst :=
  (topFeatures_spec sampleTable 15).2.1 (by decide)

/-- C2: persisting the model and the feature list and reloading both yields
the very model written and the identical ordered feature list, so the
reloaded model's predictions on any rows equal those of the in-memory one. -/
theorem persist_roundtrip {μ ρ π : Type} (predict : μ → ρ → π)
    (s : Store μ) (best : μ) (feats : List String) (rows : List ρ) :
    loadModel (persistArtifacts s best feats) = some best ∧
    loadFeatures (persistArtifacts s best feats) = some feats ∧
    (loadModel (persistArtifacts s best feats)).map
        (fun m => rows.map (predict m)) = some (rows.map (predict best)) := by
  refine ⟨?_, ?_, ?_⟩ <;>
    simp [loadModel, loadFeatures, persistArtifacts, writeFile, readFile,
      modelDumpPath, featuresDumpPath, modelLoadPath, featuresLoadPath]

/-- C3: the trainer's held-out split is called with a 0.3 test fraction, seed
42 and stratification; the search is a 5-fold cross-validation scored by F1
over the scale-then-classify pipeline and the literal C x gamma x kernel
grid; a best configuration always exists, belongs to the grid and maximizes
the cross-validated score; and the fit consumes only the train part of the
split, so the held-out test rows cannot influence the search. -/
theorem grid_search_spec {α : Type}
    (cvScore : List α → List Nat → SVMParams → ℚ) (d d' : SplitData α) :
    primarySplitCall = ⟨3/10, 42, true⟩ ∧
    gridSearchSpec = ⟨5, "f1"⟩ ∧
    pipelineSteps = ["scaler", "svm"] ∧
    (∀ p : SVMParams, p ∈ paramGrid ↔
      (p.C ∈ gridCs ∧ p.gamma ∈ gridGammas ∧ p.kernel ∈ gridKernels)) ∧
    (∃ best, fitGridSearch cvScore d = some best) ∧
    (∀ best, fitGridSearch cvScore d = some best →
      best ∈ paramGrid ∧
      ∀ p ∈ paramGrid,
        cvScore d.trainX d.trainY p ≤ cvScore d.trainX d.trainY best) ∧
    (d.trainX = d'.trainX → d.trainY = d'.trainY →
      fitGridSearch cvScore d = fitGridSearch cvScore d') := by
  refine ⟨rfl, rfl, rfl, ?_, ?_, ?_, ?_⟩
  · intro p
    obtain ⟨pc, pg, pk⟩ := p
    simp only [paramGrid, List.mem_flatMap, List.mem_map]
    constructor
    · rintro ⟨c, hc, g, hg, k, hk, h⟩
      cases h
      exact ⟨hc, hg, hk⟩
    · rintro ⟨hc, hg, hk⟩
      exact ⟨pc, hc, pg, hg, pk, hk, rfl⟩
  · cases hb : fitGridSearch cvScore d with
    | some best => exact ⟨best, rfl⟩
    | none =>
      have : paramGrid = [] := List.argmax_eq_none.mp hb
      simp [paramGrid, gridCs, gridGammas, gridKernels] at this
  · intro best hbest
    have hmem : best ∈ paramGrid.argmax (cvScore d.trainX d.trainY) := hbest
    refine ⟨List.argmax_mem hmem, fun p hp => ?_⟩
    exact not_lt.mp (List.not_lt_of_mem_argmax hp hmem)
  · intro h1 h2
    simp [fitGridSearch, h1, h2]

/-- Witness for C3: a best configuration exists and the search result agrees
between two splits whose train halves coincide. -/
theorem grid_search_spec_witness :
    (∃ best,
      fitGridSearch (fun (_ : List Unit) (_ : List Nat) (_ : SVMParams) => (0 : ℚ))
        ⟨[], [], [], []⟩ = some best) ∧
    fitGridSearch (fun (_ : List Unit) (_ : List Nat) (_ : SVMParams) => (0 : ℚ))
        ⟨[], [()], [], [1]⟩ =
      fitGridSearch (fun (_ : List Unit) (_ : List Nat) (_ : SVMParams) => (0 : ℚ))
        ⟨[], [], [], []⟩ :=
  ⟨(grid_search_spec (fun _ _ _ => (0 : ℚ))
      (⟨[], [], [], []⟩ : SplitData Unit) ⟨[], [], [], []⟩).2.2.2.2.1,
   (grid_search_spec (fun _ _ _ => (0 : ℚ))
      (⟨[], [()], [], [1]⟩ : SplitData Unit) ⟨[], [], [], []⟩).2.2.2.2.2.2
     rfl rfl⟩

/-- C6 counterexample: on a test split with zero anomaly-labeled rows the
evaluator returns the plain numbers recall = 0 and precision = 0 under the
binary-averaging convention, while the global warning filter suppresses the
undefined-metric warning — nothing is reported as explicitly undefined. -/
theorem evaluator_zero_anomaly_counterexample :
    recallBinary [0, 0, 0, 0] [0, 1, 0, 0] = 0 ∧
    precisionBinary [0, 0, 0, 0] [0, 1, 0, 0] = 0 ∧
    warningsSuppressed = true := by
  have htp : tpCount [0, 0, 0, 0] [0, 1, 0, 0] = 0 := by decide
  have hfp : fpCount [0, 0, 0, 0] [0, 1, 0, 0] = 1 := by decide
  have hfn : fnCount [0, 0, 0, 0] [0, 1, 0, 0] = 0 := by decide
  refine ⟨?_, ?_, rfl⟩
  · simp [recallBinary, htp, hfn]
  · simp [precisionBinary, htp, hfp]

/-- C6 amended: whenever the test split contains zero anomaly-labeled rows,
the evaluator silently reports recall = 0 and precision = 0 (the
zero-denominator convention of the binary averaging, its warning suppressed
by the global filter) instead of an explicit undefined value. -/
theorem evaluator_zero_anomaly_silent (yTrue yPred : List Nat)
    (h : ∀ l ∈ yTrue, l ≠ 1) :
    recallBinary yTrue yPred = 0 ∧ precisionBinary yTrue yPred = 0 ∧
    warningsSuppressed = true := by
  have htp := tpCount_eq_zero yTrue yPred h
  have hfn := fnCount_eq_zero yTrue yPred h
  refine ⟨by simp [recallBinary, htp, hfn], ?_, rfl⟩
  by_cases hfp : fpCount yTrue yPred = 0
  · simp [precisionBinary, htp, hfp]
  · simp [precisionBinary, htp, hfp]

/-- Witness for C6's amended statement at a concrete anomaly-free test
split. -/
theorem evaluator_zero_anomaly_silent_witness :
    recallBinary [0, 0] [1, 0] = 0 ∧ precisionBinary [0, 0] [1, 0] = 0 ∧
    warningsSuppressed = true :=
  evaluator_zero_anomaly_silent [0, 0] [1, 0] (by decide)

/-- C8: when the explainability libraries are unavailable the availability
flag is false, the SHAP and LIME stages are skipped with their descriptive
messages, the run still executes its full stage list, and every other stage
is identical to the run with the libraries available. -/
theorem explainability_guard (d : StageResult) :
    explainabilityFlag false = false ∧
    shapStage (explainabilityFlag false) =
      .skipped "SHAP analysis skipped because libraries are not installed." ∧
    limeStage (explainabilityFlag false) =
      .skipped "LIME analysis skipped because libraries are not installed." ∧
    (notebookStages false).length = 11 ∧
    (notebookStages false).length = (notebookStages true).length ∧
    (∀ i : Nat, i ≠ 7 → i ≠ 8 →
      (notebookStages false).getD i d = (notebookStages true).getD i d) := by
  refine ⟨rfl, rfl, rfl, rfl, rfl, ?_⟩
  intro i h7 h8
  match i, h7, h8 with
  | 0, _, _ => rfl
  | 1, _, _ => rfl
  | 2, _, _ => rfl
  | 3, _, _ => rfl
  | 4, _, _ => rfl
  | 5, _, _ => rfl
  | 6, _, _ => rfl
  | 7, h7, _ => exact absurd rfl h7
  | 8, _, h8 => exact absurd rfl h8
  | 9, _, _ => rfl
  | 10, _, _ => rfl
  | n + 11, _, _ => rfl

/-- Witness for C8: a non-explainability stage is unchanged by the flag. -/
theorem explainability_guard_witness :
    (notebookStages false).getD 4 (.ran "x") =
      (notebookStages true).getD 4 (.ran "x") :=
  (explainability_guard (.ran "x")).2.2.2.2.2 4 (by decide) (by decide)

/-- C9: the model is dumped to svm_nimda_1min_model.pkl and the feature list
to nimda_1_bgp_anomaly_selected_features.csv, exactly the paths the reload
step reads back; the confirmation prints name two different files
(bgp_anomaly_svm_model.pkl and bgp_anomaly_selected_features.csv) at which
the persister creates nothing. -/
theorem persist_paths_and_messages :
    modelDumpPath = modelLoadPath ∧
    featuresDumpPath = featuresLoadPath ∧
    modelSavedMessage = "Model saved to '" ++ messageModelPath ++ "'" ∧
    featuresSavedMessage =
      "Selected features saved to '" ++ messageFeaturesPath ++ "'" ∧
    messageModelPath ≠ modelDumpPath ∧
    messageFeaturesPath ≠ featuresDumpPath ∧
    readFile (persistArtifacts ([] : Store Unit) () ["f"]) messageModelPath
      = none ∧
    readFile (persistArtifacts ([] : Store Unit) () ["f"]) messageFeaturesPath
      = none :=
  ⟨rfl, rfl, rfl, rfl, by decide, by decide, by decide, by decide⟩

/-- C10: the PCA-space split passes the same seed, test fraction and stratify
labels as the primary split, so any deterministic splitter produces the
identical train/test index partition, and the visualization model's training
rows are exactly the projections of the primary training rows. -/
theorem pca_split_matches_primary {α β : Type}
    (split : Nat → ℚ → List Nat → List Nat × List Nat)
    (X : List α) (y : List Nat) (f : α → β) (dX : α)
    (hval : ∀ i ∈ (primarySplitIndices split y).1, i < X.length) :
    pcaSplitIndices split y = primarySplitIndices split y ∧
    (pcaSplitIndices split y).1 = (primarySplitIndices split y).1 ∧
    (pcaSplitIndices split y).2 = (primarySplitIndices split y).2 ∧
    selectRows (X.map f) (pcaSplitIndices split y).1 (f dX) =
      (selectRows X (primarySplitIndices split y).1 dX).map f := by
  refine ⟨rfl, rfl, rfl, ?_⟩
  exact selectRows_map f X _ dX hval

/-- Witness for C10 with a concrete splitter and a one-row table. -/
theorem pca_split_matches_primary_witness :
    pcaSplitIndices (fun _ _ l => (List.range l.length, [])) [0] =
      primarySplitIndices (fun _ _ l => (List.range l.length, [])) [0] ∧
    (pcaSplitIndices (fun _ _ l => (List.range l.length, [])) [0]).1 =
      (primarySplitIndices (fun _ _ l => (List.range l.length, [])) [0]).1 ∧
    (pcaSplitIndices (fun _ _ l => (List.range l.length, [])) [0]).2 =
      (primarySplitIndices (fun _ _ l => (List.range l.length, [])) [0]).2 ∧
    selectRows ([[(3 : ℚ)]].map List.length)
        (pcaSplitIndices (fun _ _ l => (List.range l.length, [])) [0]).1
        ([(0 : ℚ)].length) =
      (selectRows [[(3 : ℚ)]]
        (primarySplitIndices (fun _ _ l => (List.range l.length, [])) [0]).1
        [(0 : ℚ)]).map List.length :=
  pca_split_matches_primary (fun _ _ l => (List.range l.length, []))
    [[(3 : ℚ)]] [0] List.length [(0 : ℚ)] (by decide)

end BgpSvm
